import Mathlib

/-!
Verification of `kombu/compat.py`: a carrot-compatible `Publisher` /
`Consumer` / `ConsumerSet` adapter layer over a generic broker abstraction.

The Python code is shallowly embedded: message queues become Lean lists,
lazy generators become fuel-indexed run functions returning the trace of
observable operations (consume registrations, drain steps, yields), and
Python `None`-able arguments become `Option` values.  Collaborator code
that lives outside `kombu/compat.py` (`messaging`, `entity`,
`kombu.common.entry_to_queue`) is modelled from the specification and
marked as such in the corresponding doc comments.
-/

namespace KombuCompat

/-- A broker message; only the payload is observable to the callback path
(`self.receive(message.payload, message)`). -/
structure Message (α : Type) where
  payload : α
deriving DecidableEq, Repr

/-- Python truthiness of an optional integer `limit` argument: `None` and
`0` are falsy, every nonzero number is truthy.  This is the `limit and ...`
guard shared by `_iterconsume` and `Consumer.iterqueue`. -/
def limitTruthy : Option Nat → Bool
  | none => false
  | some n => n != 0

/-- The guard `limit and k >= limit` of the iteration loops: the bound only
fires when `limit` is truthy and the iteration count has reached it. -/
def limitReached (limit : Option Nat) (k : Nat) : Bool :=
  limitTruthy limit && decide (limit.getD 0 ≤ k)

/-- Modelled from the spec: `messaging.Consumer.consume` (not under `src/`)
registers the consumer with the broker; its `no_ack` argument "defaults to
the instance policy when unspecified". -/
def consumeEffectiveAck (self_no_ack : Bool) (no_ack : Option Bool) : Bool :=
  no_ack.getD self_no_ack

/-- One observable operation of the push-mode drain loop: the single
`consumer.consume(no_ack=...)` registration (recording the effective ack
policy used), or one `connection.drain_events()` step (recording the value
drained, which is also the value yielded to the caller). -/
inductive Op (α : Type) where
  | consume (effective_no_ack : Bool)
  | drain (event : α)
deriving DecidableEq, Repr

/-- Whether an operation is a "start consuming" registration. -/
def Op.isConsume : Op α → Bool
  | .consume _ => true
  | .drain _ => false

/-- The loop body of `_iterconsume`, pumped `fuel` times starting at
iteration counter `iteration`: each pump first checks
`if limit and iteration >= limit: raise StopIteration` and otherwise
performs one `connection.drain_events()` call, yielding its value.
`events i` is the value the i-th `drain_events` call returns.  The Boolean
result records whether the sequence terminated (raised `StopIteration`)
within the given number of pumps. -/
def drainSteps (events : Nat → α) (limit : Option Nat) :
    Nat → Nat → List (Op α) × Bool
  | 0, _ => ([], false)
  | fuel + 1, iteration =>
    if limitReached limit iteration then ([], true)
    else
      let rest := drainSteps events limit fuel (iteration + 1)
      (Op.drain (events iteration) :: rest.1, rest.2)

/-- The generator `_iterconsume(connection, consumer, no_ack, limit)`,
pumped `fuel` times: nothing runs until the first pump; the first pump
performs the single `consumer.consume(no_ack=no_ack)` registration and then
enters the drain loop.  Returns the operation trace and whether the
sequence terminated within `fuel` pumps. -/
def iterconsumeGen (self_no_ack : Bool) (events : Nat → α)
    (no_ack : Option Bool) (limit : Option Nat) (fuel : Nat) :
    List (Op α) × Bool :=
  match fuel with
  | 0 => ([], false)
  | _ + 1 =>
    let rest := drainSteps events limit fuel 0
    (Op.consume (consumeEffectiveAck self_no_ack no_ack) :: rest.1, rest.2)

/-- The method `Consumer.iterconsume(limit=None, no_ack=None)`:
`return _iterconsume(self.connection, self, no_ack, limit)`. -/
def Consumer.iterconsume (self_no_ack : Bool) (events : Nat → α)
    (limit : Option Nat) (no_ack : Option Bool) (fuel : Nat) :
    List (Op α) × Bool :=
  iterconsumeGen self_no_ack events no_ack limit fuel

/-- With a truthy limit `N` and the iteration counter at `j`, the drain
loop performs exactly `N - j` further drain steps, in order, and then
terminates, given enough pumps. -/
theorem drainSteps_limit (events : Nat → α) (N : Nat) (hN : 1 ≤ N) :
    ∀ fuel j, N - j + 1 ≤ fuel →
      drainSteps events (some N) fuel j =
        ((List.range' j (N - j)).map (fun i => Op.drain (events i)), true) := by
  intro fuel
  induction fuel with
  | zero => intro j h; omega
  | succ fuel ih =>
    intro j h
    by_cases hj : N ≤ j
    · have hz : N - j = 0 := by omega
      have hguard : limitReached (some N) j = true := by
        simp only [limitReached, limitTruthy, Option.getD_some, Bool.and_eq_true,
          bne_iff_ne, ne_eq, decide_eq_true_eq]
        omega
      simp [drainSteps, hguard, hz]
    · push_neg at hj
      have hguard : limitReached (some N) j = false := by
        simp [limitReached, limitTruthy]
        omega
      have hrec := ih (j + 1) (by omega)
      have hlen : N - j = (N - (j + 1)) + 1 := by omega
      simp [drainSteps, hguard, hrec, hlen, List.range'_succ]

/-- Claim C1: for every positive integer N, `iterconsume(limit=N)`
performs exactly one "start consuming" registration (one `consume` call)
regardless of N, and the resulting sequence performs exactly N
`drain_events` steps, each yielded element being the value returned by
`connection.drain_events()`. -/
theorem iterconsume_limit_one_consume_N_drains
    (self_no_ack : Bool) (events : Nat → α) (no_ack : Option Bool)
    (N fuel : Nat) (hN : 1 ≤ N) (hfuel : N + 1 ≤ fuel) :
    Consumer.iterconsume self_no_ack events (some N) no_ack fuel =
      (Op.consume (consumeEffectiveAck self_no_ack no_ack) ::
        (List.range N).map (fun i => Op.drain (events i)), true) ∧
    ((Consumer.iterconsume self_no_ack events (some N) no_ack fuel).1.countP
        (fun o => o.isConsume) = 1) := by
  obtain ⟨fuel', rfl⟩ : ∃ fuel', fuel = fuel' + 1 :=
    ⟨fuel - 1, by omega⟩
  have hds := drainSteps_limit events N hN (fuel' + 1) 0 (by omega)
  have hmain : Consumer.iterconsume self_no_ack events (some N) no_ack (fuel' + 1) =
      (Op.consume (consumeEffectiveAck self_no_ack no_ack) ::
        (List.range N).map (fun i => Op.drain (events i)), true) := by
    simp [Consumer.iterconsume, iterconsumeGen, hds, List.range_eq_range']
  refine ⟨hmain, ?_⟩
  rw [hmain]
  simp [List.countP_cons, Op.isConsume, List.countP_eq_zero]

/-- Witness for C1 at N = 2, fuel = 3. -/
theorem iterconsume_limit_one_consume_N_drains_witness :
    (1 ≤ 2 ∧ 2 + 1 ≤ 3) ∧
    Consumer.iterconsume true (fun i => i) (some 2) none 3 =
      (Op.consume true :: [Op.drain 0, Op.drain 1], true) := by
  refine ⟨⟨by omega, by omega⟩, ?_⟩
  have h := iterconsume_limit_one_consume_N_drains true (fun i => i) none 2 3
    (by omega) (by omega)
  simpa [consumeEffectiveAck, List.range] using h.1

/-- Claim C7: when `no_ack` is unspecified (None), the ack policy actually
used for the `consume` registration equals the instance's `no_ack`
policy. -/
theorem iterconsume_no_ack_defaults_to_instance
    (self_no_ack : Bool) (events : Nat → α) (limit : Option Nat)
    (fuel : Nat) (hfuel : 1 ≤ fuel) :
    (Consumer.iterconsume self_no_ack events limit none fuel).1.head? =
      some (Op.consume self_no_ack) := by
  obtain ⟨fuel', rfl⟩ : ∃ fuel', fuel = fuel' + 1 :=
    ⟨fuel - 1, by omega⟩
  simp [Consumer.iterconsume, iterconsumeGen, consumeEffectiveAck]

/-- Witness for C7 with instance policy `true`, fuel 1. -/
theorem iterconsume_no_ack_defaults_to_instance_witness :
    (1 : Nat) ≤ 1 ∧
    (Consumer.iterconsume true (fun i => i) none none 1).1.head? =
      some (Op.consume true) :=
  ⟨le_refl 1,
    iterconsume_no_ack_defaults_to_instance true (fun i => i) none 1 (le_refl 1)⟩

/-- With `limit = 0` the guard never fires, exactly as with
`limit = None`. -/
theorem drainSteps_zero_eq_none (events : Nat → α) :
    ∀ fuel j, drainSteps events (some 0) fuel j = drainSteps events none fuel j := by
  intro fuel
  induction fuel with
  | zero => intro j; rfl
  | succ fuel ih =>
    intro j
    simp [drainSteps, limitReached, limitTruthy, ih (j + 1)]

/-- The drain loop with `limit = None` never terminates, whatever the
number of pumps. -/
theorem drainSteps_none_not_done (events : Nat → α) :
    ∀ fuel j, (drainSteps events none fuel j).2 = false := by
  intro fuel
  induction fuel with
  | zero => intro j; rfl
  | succ fuel ih =>
    intro j
    simp [drainSteps, limitReached, limitTruthy, ih (j + 1)]

/-- Claim C9: `iterconsume(limit=0)` produces an unbounded sequence,
behaviorally identical to `limit=None`: the truthiness check treats zero as
"no limit", so the sequence never terminates via the limit bound. -/
theorem iterconsume_limit_zero_unbounded (self_no_ack : Bool)
    (events : Nat → α) (no_ack : Option Bool) (fuel : Nat) :
    Consumer.iterconsume self_no_ack events (some 0) no_ack fuel =
      Consumer.iterconsume self_no_ack events none no_ack fuel ∧
    (Consumer.iterconsume self_no_ack events (some 0) no_ack fuel).2 = false := by
  match fuel with
  | 0 => exact ⟨rfl, rfl⟩
  | fuel + 1 =>
    constructor
    · simp [Consumer.iterconsume, iterconsumeGen, drainSteps_zero_eq_none]
    · simp [Consumer.iterconsume, iterconsumeGen, drainSteps_zero_eq_none,
        drainSteps_none_not_done]

/-- Modelled from the spec: the channel-level "retrieve-one-message (pull)"
capability used by `self.queues[0].get(no_ack)` (the `entity.Queue.get`
implementation is not under `src/`): one non-blocking retrieval attempt
that returns the next available message, or nothing when the queue is
empty, removing the returned message from the queue. -/
def Queue.get (q : List (Message α)) (no_ack : Bool) :
    Option (Message α) × List (Message α) :=
  (q.head?, q.tail)

/-- The observable outcome of one `Consumer.fetch` call: the returned
message, the remaining queue contents, the list of ack flags passed to the
underlying `get` call (one entry per retrieval performed), and the
`(payload, message)` pairs dispatched through `self.receive`. -/
structure FetchResult (α : Type) where
  message : Option (Message α)
  queue : List (Message α)
  gets : List Bool
  callbacks : List (α × Message α)
deriving DecidableEq, Repr

/-- The method `Consumer.fetch(no_ack=None, enable_callbacks=False)`: resolve
`no_ack` from the instance policy when `None`, perform one
`self.queues[0].get(no_ack)` retrieval on the first bound queue `q`, and if
a message was retrieved and `enable_callbacks` is set, dispatch
`self.receive(message.payload, message)`; return the message (or nothing)
in any case. -/
def Consumer.fetch (self_no_ack : Bool) (q : List (Message α))
    (no_ack : Option Bool) (enable_callbacks : Bool) : FetchResult α :=
  let resolved := match no_ack with
    | none => self_no_ack
    | some b => b
  let got := Queue.get q resolved
  { message := got.1
    queue := got.2
    gets := [resolved]
    callbacks := match got.1, enable_callbacks with
      | some m, true => [(m.payload, m)]
      | _, _ => [] }

/-- Claim C3: `Consumer.fetch(no_ack, enable_callbacks)` resolves a `None`
ack policy to the instance policy, performs exactly one `get` against the
first bound queue with the resolved policy, returns the retrieved message
(or a null value when none is available), dispatches
`receive(payload, message)` exactly when `enable_callbacks` is set and a
message was retrieved, and invokes no callback when no message was
retrieved. -/
theorem fetch_spec (self_no_ack : Bool) (q : List (Message α))
    (no_ack : Option Bool) (enable_callbacks : Bool) :
    (no_ack = none →
      (Consumer.fetch self_no_ack q no_ack enable_callbacks).gets =
        [self_no_ack]) ∧
    (Consumer.fetch self_no_ack q no_ack enable_callbacks).gets =
      [no_ack.getD self_no_ack] ∧
    (Consumer.fetch self_no_ack q no_ack enable_callbacks).message = q.head? ∧
    (Consumer.fetch self_no_ack q no_ack enable_callbacks).queue = q.tail ∧
    (∀ m, enable_callbacks = true → q.head? = some m →
      (Consumer.fetch self_no_ack q no_ack enable_callbacks).callbacks =
        [(m.payload, m)]) ∧
    (enable_callbacks = false ∨ q.head? = none →
      (Consumer.fetch self_no_ack q no_ack enable_callbacks).callbacks = []) := by
  refine ⟨?_, ?_, rfl, rfl, ?_, ?_⟩
  · rintro rfl
    rfl
  · cases no_ack <;> rfl
  · intro m hcb hm
    simp [Consumer.fetch, Queue.get, hcb, hm]
  · rintro (rfl | hm)
    · simp [Consumer.fetch, Queue.get]
    · simp [Consumer.fetch, Queue.get, hm]

/-- Witness for C3: fetching with callbacks enabled from a one-message
queue, with `no_ack` unspecified and instance policy `false`. -/
theorem fetch_spec_witness :
    (Consumer.fetch false [Message.mk (5 : Nat)] none true).gets = [false] ∧
    (Consumer.fetch false [Message.mk (5 : Nat)] none true).callbacks =
      [((5 : Nat), Message.mk 5)] := by
  have h := fetch_spec false [Message.mk (5 : Nat)] none true
  exact ⟨h.1 rfl, (h.2.2.2.2.1 (Message.mk 5) rfl rfl)⟩

/-- The accumulated outcome of pumping an `iterqueue` generator: the
yielded items in order (`none` is a possible yield when `infinite` is set),
the remaining queue contents, the number of `fetch` calls performed, the
callback dispatches (provably none: `iterqueue` calls `fetch()` with
callbacks disabled), and whether the sequence terminated. -/
structure IterqueueRun (α : Type) where
  yields : List (Option (Message α))
  queue : List (Message α)
  fetches : Nat
  callbacks : List (α × Message α)
  done : Bool
deriving DecidableEq, Repr

/-- The loop of `Consumer.iterqueue(limit, infinite)`, pumped `fuel` times
with the `items_since_start` counter at `items`: each pump performs one
`self.fetch()` call (defaults: `no_ack=None`, `enable_callbacks=False`),
then terminates if the fetch returned nothing (unless `infinite`) or the
number of items already produced has reached a truthy `limit`; otherwise it
yields the fetched item. -/
def iterqueueAux (self_no_ack : Bool) (limit : Option Nat) (infinite : Bool) :
    Nat → List (Message α) → Nat → IterqueueRun α
  | 0, q, _ =>
    { yields := [], queue := q, fetches := 0, callbacks := [], done := false }
  | fuel + 1, q, items =>
    let r := Consumer.fetch self_no_ack q none false
    if (!infinite && r.message.isNone) || limitReached limit items then
      { yields := [], queue := r.queue, fetches := 1,
        callbacks := r.callbacks, done := true }
    else
      let rest := iterqueueAux self_no_ack limit infinite fuel r.queue (items + 1)
      { yields := r.message :: rest.yields, queue := rest.queue,
        fetches := 1 + rest.fetches, callbacks := r.callbacks ++ rest.callbacks,
        done := rest.done }

/-- The method `Consumer.iterqueue(limit=None, infinite=False)` pumped `fuel` times:
the loop starting with `items_since_start = 0`. -/
def Consumer.iterqueue (self_no_ack : Bool) (q : List (Message α))
    (limit : Option Nat) (infinite : Bool) (fuel : Nat) : IterqueueRun α :=
  iterqueueAux self_no_ack limit infinite fuel q 0

/-- Exact behaviour of the non-infinite, truthily-limited `iterqueue` loop
from an arbitrary counter value `j`: with `t = min (N - j) q.length`, it
yields the first `t` messages of the queue, performs `t + 1` fetches (the
final fetch is the terminating one), removes `t + 1` messages from the
queue (or all of them), dispatches no callback, and terminates. -/
theorem iterqueueAux_spec (self_no_ack : Bool) (N : Nat) (hN : 1 ≤ N) :
    ∀ (fuel : Nat) (q : List (Message α)) (j : Nat),
      min (N - j) q.length + 1 ≤ fuel →
      iterqueueAux self_no_ack (some N) false fuel q j =
        { yields := (q.take (min (N - j) q.length)).map some,
          queue := q.drop (min (N - j) q.length + 1),
          fetches := min (N - j) q.length + 1,
          callbacks := [],
          done := true } := by
  intro fuel
  induction fuel with
  | zero => intro q j h; omega
  | succ fuel ih =>
    intro q j h
    by_cases hj : N ≤ j
    · have hz : N - j = 0 := by omega
      have hguard : limitReached (some N) j = true := by
        simp only [limitReached, limitTruthy, Option.getD_some, Bool.and_eq_true,
          bne_iff_ne, ne_eq, decide_eq_true_eq]
        omega
      simp [iterqueueAux, hguard, hz, Consumer.fetch, Queue.get, List.drop_one]
    · push_neg at hj
      have hguard : limitReached (some N) j = false := by
        simp [limitReached, limitTruthy]
        omega
      match q with
      | [] =>
        simp [iterqueueAux, hguard, Consumer.fetch, Queue.get]
      | m :: q' =>
        have hmin : min (N - j) (m :: q').length =
            min (N - (j + 1)) q'.length + 1 := by
          simp only [List.length_cons]
          omega
        have hrec := ih q' (j + 1) (by omega)
        simp only [iterqueueAux, Consumer.fetch, Queue.get, List.head?_cons,
          List.tail_cons, Option.isNone_some, Bool.and_false, Bool.false_or,
          hguard, if_neg Bool.false_ne_true, hrec, hmin, IterqueueRun.mk.injEq,
          List.take_succ_cons, List.drop_succ_cons, List.map_cons]
        and_intros <;> first | trivial | omega

/-- Claim C2: for every N ≥ 1, `Consumer.iterqueue(limit=N,
infinite=False)` yields at most `min (N, number-of-available-messages)`
items — the sequence ends at the first fetch that returns no message, or
once N items have already been produced, whichever bound triggers first
(here: it terminates having yielded exactly the first
`min N q.length` messages). -/
theorem iterqueue_limit_yields_at_most_min (self_no_ack : Bool)
    (q : List (Message α)) (N fuel : Nat) (hN : 1 ≤ N)
    (hfuel : min N q.length + 1 ≤ fuel) :
    (Consumer.iterqueue self_no_ack q (some N) false fuel).yields.length ≤
      min N q.length ∧
    (Consumer.iterqueue self_no_ack q (some N) false fuel).done = true ∧
    (Consumer.iterqueue self_no_ack q (some N) false fuel).yields =
      (q.take (min N q.length)).map some := by
  have h := iterqueueAux_spec self_no_ack N hN fuel q 0
    (by simpa using hfuel)
  simp only [Consumer.iterqueue, Nat.sub_zero] at h ⊢
  rw [h]
  refine ⟨?_, rfl, rfl⟩
  simp [List.length_take]

/-- Witness for C2 at N = 2 over a one-message queue, fuel 2: only one
message is available, so only one item is yielded. -/
theorem iterqueue_limit_yields_at_most_min_witness :
    (1 ≤ 2 ∧ min 2 [Message.mk (7 : Nat)].length + 1 ≤ 2) ∧
    (Consumer.iterqueue false [Message.mk (7 : Nat)] (some 2) false 2).yields =
      [some (Message.mk 7)] := by
  refine ⟨⟨by omega, by simp⟩, ?_⟩
  have h := iterqueue_limit_yields_at_most_min false [Message.mk (7 : Nat)] 2 2
    (by omega) (by simp)
  simpa using h.2.2

/-- Claim C10: for every N ≥ 1, when at least N + 1 messages are available,
`Consumer.iterqueue(limit=N)` performs N + 1 fetch calls: after the N-th
item has been yielded, the terminating step performs one additional fetch
whose retrieved message is removed from the queue but is neither yielded to
the caller nor dispatched to any callback. -/
theorem iterqueue_limit_extra_fetch_discards (self_no_ack : Bool)
    (q : List (Message α)) (N fuel : Nat) (hN : 1 ≤ N)
    (havail : N + 1 ≤ q.length) (hfuel : N + 1 ≤ fuel) :
    (Consumer.iterqueue self_no_ack q (some N) false fuel).fetches = N + 1 ∧
    (Consumer.iterqueue self_no_ack q (some N) false fuel).yields =
      (q.take N).map some ∧
    (Consumer.iterqueue self_no_ack q (some N) false fuel).queue =
      q.drop (N + 1) ∧
    (Consumer.iterqueue self_no_ack q (some N) false fuel).callbacks = [] ∧
    (Consumer.iterqueue self_no_ack q (some N) false fuel).done = true := by
  have hmin : min (N - 0) q.length = N := by omega
  have h := iterqueueAux_spec self_no_ack N hN fuel q 0 (by omega)
  rw [hmin] at h
  simp only [Consumer.iterqueue]
  rw [h]
  exact ⟨rfl, rfl, rfl, rfl, rfl⟩

/-- Witness for C10 at N = 1 over a three-message queue, fuel 2: two
fetches happen, the first message is yielded, the second is removed but not
yielded, the third remains queued. -/
theorem iterqueue_limit_extra_fetch_discards_witness :
    (1 ≤ 1 ∧ 1 + 1 ≤ ([Message.mk 1, Message.mk 2, Message.mk (3 : Nat)] :
        List (Message Nat)).length ∧ 1 + 1 ≤ 2) ∧
    (Consumer.iterqueue false [Message.mk 1, Message.mk 2, Message.mk (3 : Nat)]
        (some 1) false 2).fetches = 2 ∧
    (Consumer.iterqueue false [Message.mk 1, Message.mk 2, Message.mk (3 : Nat)]
        (some 1) false 2).yields = [some (Message.mk 1)] ∧
    (Consumer.iterqueue false [Message.mk 1, Message.mk 2, Message.mk (3 : Nat)]
        (some 1) false 2).queue = [Message.mk 3] := by
  refine ⟨⟨by omega, by simp, by omega⟩, ?_⟩
  have h := iterqueue_limit_extra_fetch_discards false
    [Message.mk 1, Message.mk 2, Message.mk (3 : Nat)] 1 2
    (by omega) (by simp) (by omega)
  exact ⟨h.1, by simpa using h.2.1, by simpa using h.2.2.1⟩

/-- A broker channel, observed through the number of `close` calls it has
received. -/
structure Chan where
  closeCount : Nat
deriving DecidableEq, Repr

/-- The observable side effects of `Publisher.close`, in the order they are
performed: a `self.channel.close()` call, or the delegation to the parent
producer's `close`. -/
inductive PubOp where
  | channelClose
  | parentClose
deriving DecidableEq, Repr

/-- The fields of a `Publisher` relevant to `close`: the channel reference
(possibly null), the `_provided_channel` ownership flag that `__init__`
sets when a channel was passed in by the caller, and the `_closed` guard
flag. -/
structure PublisherState where
  channel : Option Chan
  provided_channel : Bool
  closed : Bool
deriving DecidableEq, Repr

/-- The method `Publisher.close()`: if the channel is not null and was not externally
provided, close it; then delegate to the parent close; then set the
`_closed` guard unconditionally.  Returns the new state together with the
ordered trace of close effects. -/
def Publisher.close (p : PublisherState) : PublisherState × List PubOp :=
  let step1 :=
    if p.channel.isSome && !p.provided_channel then
      ({ p with channel :=
          p.channel.map fun c => { c with closeCount := c.closeCount + 1 } },
        [PubOp.channelClose])
    else (p, ([] : List PubOp))
  ({ step1.1 with closed := true }, step1.2 ++ [PubOp.parentClose])

/-- Claim C4: for a `Publisher` with an externally supplied channel
(`_provided_channel` true), `close()` never invokes close on that channel;
for a `Publisher` that owns its channel, `close()` closes that channel
exactly once (when it is non-null) before delegating to the parent close;
in both cases the `_closed` guard flag is set unconditionally. -/
theorem publisher_close_ownership (p : PublisherState) :
    (p.provided_channel = true →
      ((Publisher.close p).2.count PubOp.channelClose = 0 ∧
        (Publisher.close p).1.channel = p.channel)) ∧
    (p.provided_channel = false → ∀ c, p.channel = some c →
      ((Publisher.close p).2 = [PubOp.channelClose, PubOp.parentClose] ∧
        (Publisher.close p).1.channel =
          some { c with closeCount := c.closeCount + 1 })) ∧
    (Publisher.close p).1.closed = true := by
  obtain ⟨ch, prov, cl⟩ := p
  refine ⟨?_, ?_, ?_⟩
  · rintro rfl
    simp [Publisher.close]
  · rintro rfl c rfl
    simp [Publisher.close, List.count_cons]
  · cases prov <;> cases ch <;> simp [Publisher.close]

/-- Witness for C4, applied both to a borrowed-channel publisher and to an
owning publisher with a fresh channel. -/
theorem publisher_close_ownership_witness :
    ((Publisher.close ⟨some ⟨0⟩, true, false⟩).2.count PubOp.channelClose = 0 ∧
      (Publisher.close ⟨some ⟨0⟩, true, false⟩).1.channel = some ⟨0⟩) ∧
    ((Publisher.close ⟨some ⟨0⟩, false, false⟩).2 =
        [PubOp.channelClose, PubOp.parentClose] ∧
      (Publisher.close ⟨some ⟨0⟩, false, false⟩).1.channel = some ⟨1⟩) ∧
    (Publisher.close ⟨some ⟨0⟩, true, false⟩).1.closed = true := by
  refine ⟨?_, ?_, ?_⟩
  · exact (publisher_close_ownership ⟨some ⟨0⟩, true, false⟩).1 rfl
  · exact (publisher_close_ownership ⟨some ⟨0⟩, false, false⟩).2.1 rfl ⟨0⟩ rfl
  · exact (publisher_close_ownership ⟨some ⟨0⟩, true, false⟩).2.2

/-- An error raised synchronously by the compat layer
(`NotImplementedError` with its message). -/
inductive CompatError where
  | notImplemented (msg : String)
deriving DecidableEq, Repr

/-- Modelled from the spec: `messaging.Consumer.purge` (not under `src/`)
is the channel-level "purge-all-messages" capability; it discards every
currently-queued message. -/
def purge (q : List (Message α)) : Nat × List (Message α) :=
  (q.length, [])

/-- The method `Consumer.discard_all(filterfunc=None)`: a non-null `filterfunc`
raises `NotImplementedError` before anything else happens; otherwise
delegate to `self.purge()`.  Returns the outcome together with the
resulting queue contents. -/
def Consumer.discard_all {φ : Type} (q : List (Message α))
    (filterfunc : Option φ) : Except CompatError Nat × List (Message α) :=
  match filterfunc with
  | some _ =>
    (Except.error (CompatError.notImplemented
      "discard_all does not implement filters"), q)
  | none =>
    let r := purge q
    (Except.ok r.1, r.2)

/-- The method `Consumer.process_next()`: unconditionally raises
`NotImplementedError` pointing at the documented replacement. -/
def Consumer.process_next : Except CompatError (Message α) :=
  Except.error (CompatError.notImplemented "Use fetch(enable_callbacks=True)")

/-- Claim C5: for every non-null `filterfunc`, `discard_all(filterfunc)`
raises an unsupported-operation error without performing any purge (the
queue state is unchanged); `process_next()` always raises an
unsupported-operation error pointing to `fetch(enable_callbacks=True)`;
both errors are raised synchronously. -/
theorem discard_all_filter_and_process_next_unsupported {φ : Type}
    (q : List (Message α)) (f : φ) :
    (Consumer.discard_all q (some f)).1 =
      Except.error (CompatError.notImplemented
        "discard_all does not implement filters") ∧
    (Consumer.discard_all q (some f)).2 = q ∧
    (Consumer.process_next (α := α)) =
      Except.error (CompatError.notImplemented
        "Use fetch(enable_callbacks=True)") :=
  ⟨rfl, rfl, rfl⟩

/-- Class-level default of `Publisher.exchange`. -/
def Publisher.exchange : String := ""

/-- Class-level default of `Publisher.exchange_type`. -/
def Publisher.exchange_type : String := "direct"

/-- Class-level default of `Publisher.routing_key`. -/
def Publisher.routing_key : String := ""

/-- Class-level default of `Publisher.durable`. -/
def Publisher.durable : Bool := true

/-- Class-level default of `Publisher.auto_delete`. -/
def Publisher.auto_delete : Bool := false

/-- Python `argument or default` resolution for an optional string
argument: `None` and the empty string are falsy and fall back to the
default. -/
def pyOrStr (arg : Option String) (dflt : String) : String :=
  match arg with
  | none => dflt
  | some s => if s = "" then dflt else s

/-- Python `if argument is not None: field = argument` resolution for an
optional Boolean argument. -/
def pyIfNotNone (arg : Option Bool) (dflt : Bool) : Bool :=
  match arg with
  | none => dflt
  | some b => b

/-- The effective configuration fields a `Publisher.__init__` call
resolves. -/
structure PublisherFields where
  exchange : String
  exchange_type : String
  routing_key : String
  durable : Bool
  auto_delete : Bool
deriving DecidableEq, Repr

/-- Field resolution performed by `Publisher.__init__(connection,
exchange=None, routing_key=None, exchange_type=None, durable=None,
auto_delete=None, ...)`: the string fields use `argument or
class-default`, the Boolean fields use an `is not None` check. -/
def Publisher.initFields (exchange routing_key exchange_type : Option String)
    (durable auto_delete : Option Bool) : PublisherFields :=
  { exchange := pyOrStr exchange Publisher.exchange
    exchange_type := pyOrStr exchange_type Publisher.exchange_type
    routing_key := pyOrStr routing_key Publisher.routing_key
    durable := pyIfNotNone durable Publisher.durable
    auto_delete := pyIfNotNone auto_delete Publisher.auto_delete }

/-- Class-level default of `Consumer.queue`. -/
def Consumer.queue : String := ""

/-- Class-level default of `Consumer.exchange`. -/
def Consumer.exchange : String := ""

/-- Class-level default of `Consumer.routing_key`. -/
def Consumer.routing_key : String := ""

/-- Class-level default of `Consumer.exchange_type`. -/
def Consumer.exchange_type : String := "direct"

/-- Class-level default of `Consumer.durable`. -/
def Consumer.durable : Bool := true

/-- Class-level default of `Consumer.exclusive`. -/
def Consumer.exclusive : Bool := false

/-- Class-level default of `Consumer.auto_delete`. -/
def Consumer.auto_delete : Bool := false

/-- The effective configuration fields a `Consumer.__init__` call
resolves. -/
structure ConsumerFields where
  queue : String
  exchange : String
  routing_key : String
  exchange_type : String
  durable : Bool
  exclusive : Bool
  auto_delete : Bool
deriving DecidableEq, Repr

/-- Field resolution performed by `Consumer.__init__(connection,
queue=None, exchange=None, routing_key=None, exchange_type=None,
durable=None, exclusive=None, auto_delete=None, ...)`: Boolean fields via
`is not None` checks, string fields via `argument or class-default`. -/
def Consumer.initFields (queue exchange routing_key exchange_type : Option String)
    (durable exclusive auto_delete : Option Bool) : ConsumerFields :=
  { queue := pyOrStr queue Consumer.queue
    exchange := pyOrStr exchange Consumer.exchange
    routing_key := pyOrStr routing_key Consumer.routing_key
    exchange_type := pyOrStr exchange_type Consumer.exchange_type
    durable := pyIfNotNone durable Consumer.durable
    exclusive := pyIfNotNone exclusive Consumer.exclusive
    auto_delete := pyIfNotNone auto_delete Consumer.auto_delete }

/-- Counterexample to claim C6: the string fields are resolved with Python
`or` (truthiness), not with an `is not None` check, so an explicitly passed
empty string falls back to the class default.  Passing
`exchange_type = ""` (not None) to `Publisher.__init__` yields the class
default `"direct"`, not the passed value `""`. -/
theorem initFields_empty_string_not_overridden :
    (Publisher.initFields none none (some "") none none).exchange_type =
      "direct" ∧
    (Publisher.initFields none none (some "") none none).exchange_type ≠ "" := by
  constructor
  · rfl
  · intro h
    simp [Publisher.initFields, pyOrStr, Publisher.exchange_type] at h

/-- Claim C6 as amended: in both constructors the Boolean fields (durable,
auto_delete, and for Consumer also exclusive) take the explicitly passed
argument whenever it is not None and the class-level default otherwise,
while the string fields (exchange, exchange_type, routing_key, and for
Consumer also queue) take the passed argument only when it is truthy (not
None and non-empty) and fall back to the class-level default when the
argument is None or an empty string. -/
theorem initFields_resolution (s : String) (hs : s ≠ "") (b : Bool)
    (e rk et : Option String) (d ad : Option Bool)
    (qu ex crk cet : Option String) (cd cexcl cad : Option Bool) :
    (Publisher.initFields (some s) rk et d ad).exchange = s ∧
    (Publisher.initFields e (some s) et d ad).routing_key = s ∧
    (Publisher.initFields e rk (some s) d ad).exchange_type = s ∧
    (Publisher.initFields none rk et d ad).exchange = Publisher.exchange ∧
    (Publisher.initFields (some "") rk et d ad).exchange = Publisher.exchange ∧
    (Publisher.initFields e none et d ad).routing_key = Publisher.routing_key ∧
    (Publisher.initFields e (some "") et d ad).routing_key =
      Publisher.routing_key ∧
    (Publisher.initFields e rk none d ad).exchange_type =
      Publisher.exchange_type ∧
    (Publisher.initFields e rk (some "") d ad).exchange_type =
      Publisher.exchange_type ∧
    (Publisher.initFields e rk et (some b) ad).durable = b ∧
    (Publisher.initFields e rk et none ad).durable = Publisher.durable ∧
    (Publisher.initFields e rk et d (some b)).auto_delete = b ∧
    (Publisher.initFields e rk et d none).auto_delete = Publisher.auto_delete ∧
    (Consumer.initFields (some s) ex crk cet cd cexcl cad).queue = s ∧
    (Consumer.initFields qu (some s) crk cet cd cexcl cad).exchange = s ∧
    (Consumer.initFields qu ex (some s) cet cd cexcl cad).routing_key = s ∧
    (Consumer.initFields qu ex crk (some s) cd cexcl cad).exchange_type = s ∧
    (Consumer.initFields none ex crk cet cd cexcl cad).queue =
      Consumer.queue ∧
    (Consumer.initFields (some "") ex crk cet cd cexcl cad).queue =
      Consumer.queue ∧
    (Consumer.initFields qu none crk cet cd cexcl cad).exchange =
      Consumer.exchange ∧
    (Consumer.initFields qu (some "") crk cet cd cexcl cad).exchange =
      Consumer.exchange ∧
    (Consumer.initFields qu ex none cet cd cexcl cad).routing_key =
      Consumer.routing_key ∧
    (Consumer.initFields qu ex (some "") cet cd cexcl cad).routing_key =
      Consumer.routing_key ∧
    (Consumer.initFields qu ex crk none cd cexcl cad).exchange_type =
      Consumer.exchange_type ∧
    (Consumer.initFields qu ex crk (some "") cd cexcl cad).exchange_type =
      Consumer.exchange_type ∧
    (Consumer.initFields qu ex crk cet (some b) cexcl cad).durable = b ∧
    (Consumer.initFields qu ex crk cet none cexcl cad).durable =
      Consumer.durable ∧
    (Consumer.initFields qu ex crk cet cd (some b) cad).exclusive = b ∧
    (Consumer.initFields qu ex crk cet cd none cad).exclusive =
      Consumer.exclusive ∧
    (Consumer.initFields qu ex crk cet cd cexcl (some b)).auto_delete = b ∧
    (Consumer.initFields qu ex crk cet cd cexcl none).auto_delete =
      Consumer.auto_delete := by
  and_intros <;>
    simp [Publisher.initFields, Consumer.initFields, pyOrStr, pyIfNotNone, hs]

/-- Witness for the amended C6 at a concrete non-empty string. -/
theorem initFields_resolution_witness :
    ("orders" : String) ≠ "" ∧
    (Publisher.initFields (some "orders") none none none none).exchange =
      "orders" := by
  have h := initFields_resolution "orders" (by decide) true
    none none none none none none none none none none none none
  exact ⟨by decide, h.1⟩

/-- Modelled from the spec: a Queue Descriptor, the value
`entry_to_queue(name, **options)` produces; the declaration details are the
collaborator's contract, so it is observed here as the name + options pair
it was built from. -/
structure QueueDescriptor where
  name : String
  options : List (String × String)
deriving DecidableEq, Repr

/-- Modelled from the spec: `entry_to_queue(name, **options)` (in
`kombu.common`, not under `src/`) turns a declarative name + options entry
into a Queue Descriptor. -/
def entry_to_queue (name : String) (options : List (String × String)) :
    QueueDescriptor :=
  { name := name, options := options }

/-- Modelled from the spec: `messaging.Consumer.add_queue` (not under
`src/`) incrementally extends the bound-queue collection with the given
queue, at the end. -/
def add_queue (queues : List QueueDescriptor) (q : QueueDescriptor) :
    List QueueDescriptor :=
  queues ++ [q]

/-- The queue gathering of `ConsumerSet.__init__(connection,
from_dict=None, consumers=None, ...)`: start from an empty list, extend it
with each consumer's queues in the given order, then append one queue per
`from_dict` entry via `entry_to_queue`. -/
def ConsumerSet.initQueues (consumers : List (List QueueDescriptor))
    (from_dict : List (String × List (String × String))) :
    List QueueDescriptor :=
  let queues : List QueueDescriptor := []
  let queues := consumers.foldl (fun qs c => qs ++ c) queues
  from_dict.foldl (fun qs e => qs ++ [entry_to_queue e.1 e.2]) queues

/-- The method `ConsumerSet.add_consumer_from_dict(queue, **options)`:
`self.add_queue(entry_to_queue(queue, **options))`. -/
def ConsumerSet.add_consumer_from_dict (queues : List QueueDescriptor)
    (queue : String) (options : List (String × String)) :
    List QueueDescriptor :=
  add_queue queues (entry_to_queue queue options)

/-- Folding `extend` over a list of queue lists is concatenation after the
accumulator. -/
theorem foldl_extend_eq (l : List (List β)) :
    ∀ init : List β, l.foldl (fun qs c => qs ++ c) init = init ++ l.flatten := by
  induction l with
  | nil => intro init; simp
  | cons c t ih => intro init; simp [List.foldl_cons, ih, List.append_assoc]

/-- Folding singleton appends over a list of entries is appending the map
of the entries. -/
theorem foldl_append_singleton_eq (f : γ → β) (l : List γ) :
    ∀ init : List β,
      l.foldl (fun qs e => qs ++ [f e]) init = init ++ l.map f := by
  induction l with
  | nil => intro init; simp
  | cons c t ih => intro init; simp [List.foldl_cons, ih, List.append_assoc]

/-- Claim C8: a `ConsumerSet` constructed from a list of consumers and a
`from_dict` mapping exposes a queue collection equal to each consumer's
queues in the given consumer order, followed by the queues derived from the
`from_dict` entries, in insertion order and without deduplication; a
subsequent `add_consumer_from_dict(name, **options)` appends exactly one
queue derived from that entry at the end of the collection. -/
theorem consumerset_queue_collection_order
    (consumers : List (List QueueDescriptor))
    (from_dict : List (String × List (String × String)))
    (name : String) (options : List (String × String)) :
    ConsumerSet.initQueues consumers from_dict =
      consumers.flatten ++ from_dict.map (fun e => entry_to_queue e.1 e.2) ∧
    ConsumerSet.add_consumer_from_dict
        (ConsumerSet.initQueues consumers from_dict) name options =
      ConsumerSet.initQueues consumers from_dict ++
        [entry_to_queue name options] := by
  constructor
  · simp [ConsumerSet.initQueues, foldl_extend_eq, foldl_append_singleton_eq]
  · simp [ConsumerSet.add_consumer_from_dict, add_queue]

end KombuCompat
